import Mathlib

set_option maxHeartbeats 1000000

/-!
Verification development for the google-calendar-mcp-server repository.

The repository contains three near-identical server variants:
- src/index.js              : MCP stdio server (namespace IndexJs below),
- src/unnamed/part_001      : OpenAI tool-calling Express server (namespace PartOne),
- src/unnamed/part_002      : REST Express server (namespace PartTwo).

The embedding is shallow: every handler is a pure Lean function from its
arguments, the in-memory token state, the current time, and oracles for the
outcomes of upstream network calls (token refresh, calendar get/list/insert/
update/delete) to the observable result: the upstream request parameters it
sends and the response or error it produces.  JavaScript `undefined` is
modelled as `Option.none`; JavaScript truthiness of strings and numbers is
modelled explicitly.
-/

/-- JavaScript truthiness of an optional string: `undefined` and the empty
string are falsy, every other string is truthy. -/
def truthy : Option String → Bool
  | none => false
  | some s => s != ""

/-- JavaScript `a || b` for an optional string `a` and a string default. -/
def jsOrStr (v : Option String) (d : String) : String :=
  if truthy v then v.getD "" else d

/-- JavaScript `a || b` for an optional number (0 and `undefined` are falsy). -/
def jsOrInt (v : Option Int) (d : Int) : Int :=
  match v with
  | some n => if n != 0 then n else d
  | none => d

/-- OAuth token object as stored in the in-memory map under the key
"default" (`this.tokens` in src/index.js and part_002): `expiry_date` is the
expiry timestamp in milliseconds, absent on tokens that carry none. -/
structure Token where
  access_token : String
  refresh_token : String
  expiry_date : Option Int
deriving Repr, DecidableEq

/-- The two errors thrown by getAuthenticatedClient:
"Não autenticado..." and "Token expirado...". -/
inductive AuthError where
  | notAuthenticated
  | tokenExpired
deriving Repr, DecidableEq

deriving instance DecidableEq for Except

/-- Observable outcome of one getAuthenticatedClient call: the credential
the OAuth client ends up with (or the thrown error), the token map state
after the call, and whether refreshAccessToken was invoked. -/
structure AuthOutcome where
  result : Except AuthError Token
  tokens : Option Token
  refreshAttempted : Bool
deriving Repr, DecidableEq

/-- The refresh guard of getAuthenticatedClient:
`token.expiry_date && token.expiry_date <= Date.now()` — the timestamp must
be present and truthy (nonzero) and not in the future. -/
def needsRefresh (t : Token) (now : Int) : Bool :=
  match t.expiry_date with
  | some d => d != 0 && decide (d ≤ now)
  | none => false

/-- getAuthenticatedClient, line-identical in src/index.js (lines 243-274)
and part_002 (lines 569-606).  `tokens` is the stored state
(`this.tokens.get('default')`), `refreshOutcome` is the oracle for
`oAuth2Client.refreshAccessToken()`: `some c` means the refresh succeeded
returning credentials `c`, `none` means it threw. -/
def getAuthenticatedClient (tokens : Option Token) (now : Int)
    (refreshOutcome : Option Token) : AuthOutcome :=
  match tokens with
  | some token =>
      if needsRefresh token now then
        match refreshOutcome with
        | some credentials => ⟨Except.ok credentials, some credentials, true⟩
        | none => ⟨Except.error AuthError.tokenExpired, none, true⟩
      else ⟨Except.ok token, some token, false⟩
  | none => ⟨Except.error AuthError.notAuthenticated, none, false⟩

/-- A start/end object of a Google Calendar event: `dateTime`, all-day
`date`, and `timeZone` are each optional. -/
structure EventTime where
  dateTime : Option String
  date : Option String
  timeZone : Option String
deriving Repr, DecidableEq

/-- A calendar event as fetched from the upstream API (the fields this
system reads). -/
structure CalendarEvent where
  id : Option String
  summary : Option String
  description : Option String
  location : Option String
  start : EventTime
  end_ : EventTime
deriving Repr, DecidableEq

/-- The event resource object sent upstream on insert/update by index.js and
part_002 (it carries no id field). -/
structure EventBody where
  summary : Option String
  description : Option String
  location : Option String
  start : EventTime
  end_ : EventTime
deriving Repr, DecidableEq

/-- Arguments of create_event/update_event in index.js and part_002:
flat optional strings (`end` is a reserved word in Lean, hence `end_`). -/
structure EventArgs where
  summary : Option String
  description : Option String
  location : Option String
  start : Option String
  end_ : Option String
deriving Repr, DecidableEq

/-- The event object built by createEvent in index.js (lines 327-337) and by
POST /calendar/events in part_002 (lines 253-259): fields copied verbatim,
start/end wrapped as bare `{dateTime}` objects with no timeZone. -/
def buildEventBody (b : EventArgs) : EventBody :=
  { summary := b.summary
  , description := b.description
  , location := b.location
  , start := ⟨b.start, none, none⟩
  , end_ := ⟨b.end_, none, none⟩ }

/-- The merged resource built by updateEvent in index.js (lines 411-417) and
by PUT /calendar/events/:id in part_002 (lines 295-301), line-identical:
summary/start/end fall back to the fetched event on JS-falsy arguments,
description/location fall back only on `undefined`. -/
def mergeUpdate (args : EventArgs) (current : CalendarEvent) : EventBody :=
  { summary := if truthy args.summary then args.summary else current.summary
  , description :=
      match args.description with
      | some d => some d
      | none => current.description
  , location :=
      match args.location with
      | some l => some l
      | none => current.location
  , start := if truthy args.start then ⟨args.start, none, none⟩ else current.start
  , end_ := if truthy args.end_ then ⟨args.end_, none, none⟩ else current.end_ }

/-- An error thrown by an upstream Google API call: its numeric status code
(absent on locally-constructed plain Errors) and its message. -/
structure UpstreamErr where
  code : Option Int
  msg : String
deriving Repr, DecidableEq

/-- Arguments of list_events. -/
structure ListArgs where
  timeMin : Option String
  timeMax : Option String
  maxResults : Option Int
  singleEvents : Option Bool
deriving Repr, DecidableEq

/-- The parameter object passed to calendar.events.list. -/
structure ListParams where
  calendarId : String
  timeMin : String
  timeMax : Option String
  maxResults : Int
  singleEvents : Bool
  orderBy : String
deriving Repr, DecidableEq

namespace IndexJs

/-- The tool catalog of the MCP stdio server (src/index.js, switch in
setupToolHandlers, lines 167-185). -/
def mcpTools : List String :=
  ["get_auth_url", "get_auth_status", "list_events", "create_event",
   "delete_event", "update_event"]

/-- Dispatch result of the CallToolRequest handler: either the request is
routed to the named handler, or the default branch throws
McpError(MethodNotFound, "Ferramenta desconhecida: " ++ name). -/
inductive Dispatch where
  | handler (name : String)
  | unknownTool (name : String)
deriving Repr, DecidableEq

/-- The switch on request.params.name in setupToolHandlers (src/index.js
lines 167-185); a JS switch is a sequence of strict-equality tests. -/
def handleCallTool (name : String) : Dispatch :=
  if name = "get_auth_url" then Dispatch.handler "get_auth_url"
  else if name = "get_auth_status" then Dispatch.handler "get_auth_status"
  else if name = "list_events" then Dispatch.handler "list_events"
  else if name = "create_event" then Dispatch.handler "create_event"
  else if name = "delete_event" then Dispatch.handler "delete_event"
  else if name = "update_event" then Dispatch.handler "update_event"
  else Dispatch.unknownTool name

/-- Messages of the two auth errors as thrown in src/index.js. -/
def authMessage : AuthError → String
  | AuthError.notAuthenticated =>
      "Não autenticado. Use get_auth_url para obter o link de autenticação."
  | AuthError.tokenExpired => "Token expirado. Faça nova autenticação."

/-- A calendar.events.insert request. -/
structure InsertRequest where
  calendarId : String
  resource : EventBody
deriving Repr, DecidableEq

/-- createEvent (src/index.js lines 322-355): authenticates, builds the
event object and inserts it.  There is no validation of summary/start/end.
The result is the insert request actually issued (`none` when auth failed
before the insert). -/
def createEvent (args : EventArgs) (tokens : Option Token) (now : Int)
    (refreshOutcome : Option Token) : Option InsertRequest :=
  match (getAuthenticatedClient tokens now refreshOutcome).result with
  | Except.error _ => none
  | Except.ok _ => some ⟨"primary", buildEventBody args⟩

/-- Observable outcome of deleteEvent/updateEvent in src/index.js:
a success content block, the distinct "Evento não encontrado" content block
returned when an upstream call threw with code 404, or a thrown wrapped
error. -/
inductive ToolOutcome where
  | ok (text : String)
  | notFound (eventId : String)
  | err (msg : String)
deriving Repr, DecidableEq

/-- deleteEvent (src/index.js lines 357-399): authenticates, fetches the
event, deletes it.  The inner catch maps code-404 errors from either
upstream call to the "Evento não encontrado" content; everything else is
rethrown wrapped as "Erro ao deletar evento: ...".  Success text abbreviated
to its fixed prefix plus the data it interpolates. -/
def deleteEvent (eventId : String) (tokens : Option Token) (now : Int)
    (r : Option Token) (getOutcome : Except UpstreamErr CalendarEvent)
    (deleteOutcome : Except UpstreamErr Unit) : ToolOutcome :=
  match (getAuthenticatedClient tokens now r).result with
  | Except.error e => ToolOutcome.err ("Erro ao deletar evento: " ++ authMessage e)
  | Except.ok _ =>
      match getOutcome with
      | Except.error u =>
          if u.code = some 404 then ToolOutcome.notFound eventId
          else ToolOutcome.err ("Erro ao deletar evento: " ++ u.msg)
      | Except.ok ev =>
          match deleteOutcome with
          | Except.error u =>
              if u.code = some 404 then ToolOutcome.notFound eventId
              else ToolOutcome.err ("Erro ao deletar evento: " ++ u.msg)
          | Except.ok _ =>
              ToolOutcome.ok ("Evento deletado com sucesso! ID: " ++ eventId
                ++ " Título: " ++ ev.summary.getD "undefined")

/-- Outcome of updateEvent: the response outcome and the resource object
sent to calendar.events.update (when that call was reached). -/
structure UpdateRun where
  outcome : ToolOutcome
  sent : Option EventBody
deriving Repr, DecidableEq

/-- updateEvent (src/index.js lines 401-446): authenticates, fetches the
current event, merges (mergeUpdate) and updates.  The catch maps code-404
errors to the "Evento não encontrado" content; everything else is rethrown
wrapped as "Erro ao atualizar evento: ...". -/
def updateEvent (args : EventArgs) (eventId : String) (tokens : Option Token)
    (now : Int) (r : Option Token)
    (getOutcome : Except UpstreamErr CalendarEvent)
    (updateOutcome : Except UpstreamErr Unit) : UpdateRun :=
  match (getAuthenticatedClient tokens now r).result with
  | Except.error e =>
      ⟨ToolOutcome.err ("Erro ao atualizar evento: " ++ authMessage e), none⟩
  | Except.ok _ =>
      match getOutcome with
      | Except.error u =>
          if u.code = some 404 then ⟨ToolOutcome.notFound eventId, none⟩
          else ⟨ToolOutcome.err ("Erro ao atualizar evento: " ++ u.msg), none⟩
      | Except.ok current =>
          let updatedEvent := mergeUpdate args current
          match updateOutcome with
          | Except.error u =>
              if u.code = some 404 then ⟨ToolOutcome.notFound eventId, some updatedEvent⟩
              else ⟨ToolOutcome.err ("Erro ao atualizar evento: " ++ u.msg), some updatedEvent⟩
          | Except.ok _ => ⟨ToolOutcome.ok "Evento atualizado com sucesso!", some updatedEvent⟩

/-- The parameter object listEvents passes to calendar.events.list
(src/index.js lines 281-288): timeMin defaults to the current instant,
maxResults to 10 (JS ||, no clamping), singleEvents literally true,
orderBy literally startTime. -/
def listEvents (args : ListArgs) (nowIso : String) : ListParams :=
  { calendarId := "primary"
  , timeMin := jsOrStr args.timeMin nowIso
  , timeMax := args.timeMax
  , maxResults := jsOrInt args.maxResults 10
  , singleEvents := true
  , orderBy := "startTime" }

end IndexJs

namespace PartOne

/-- A `{dateTime, timeZone}` argument object of the tool-calling variant. -/
structure TimeArg where
  dateTime : Option String
  timeZone : Option String
deriving Repr, DecidableEq

/-- Arguments of create_calendar_event (part_001): start/end are objects,
attendees a list of email strings (the code normalizes {email} objects or
bare strings to email strings). -/
structure CreateArgs where
  summary : Option String
  description : Option String
  location : Option String
  start : Option TimeArg
  end_ : Option TimeArg
  attendees : Option (List String)
deriving Repr, DecidableEq

/-- The event resource built by createCalendarEvent (part_001 lines
356-371). -/
structure EventPayload where
  summary : Option String
  description : String
  location : String
  start : EventTime
  end_ : EventTime
  attendees : List String
deriving Repr, DecidableEq

/-- The `{dateTime, timeZone: x.timeZone || 'America/Sao_Paulo'}` object
built for start/end; the guard in createCalendarEvent ensures the argument
is present when this runs, so the getD default is unreachable there. -/
def timeField (t : Option TimeArg) : EventTime :=
  let ta := t.getD ⟨none, none⟩
  ⟨ta.dateTime, none, some (jsOrStr ta.timeZone "America/Sao_Paulo")⟩

/-- The event object construction of createCalendarEvent (part_001 lines
356-371): description/location default to the empty string, start/end get
the America/Sao_Paulo default time zone, attendees default to []. -/
def buildEvent (a : CreateArgs) : EventPayload :=
  { summary := a.summary
  , description := jsOrStr a.description ""
  , location := jsOrStr a.location ""
  , start := timeField a.start
  , end_ := timeField a.end_
  , attendees := a.attendees.getD [] }

/-- JS optional chain `args.start?.dateTime`. -/
def chainDateTime : Option TimeArg → Option String
  | none => none
  | some ta => ta.dateTime

/-- createCalendarEvent (part_001 lines 350-393): validates that summary,
start.dateTime and end.dateTime are truthy before building and inserting
the event; the result is the inserted resource or the thrown validation
message. -/
def createCalendarEvent (a : CreateArgs) : Except String EventPayload :=
  if !truthy a.summary || !truthy (chainDateTime a.start)
      || !truthy (chainDateTime a.end_) then
    Except.error "Missing required fields: summary, start.dateTime, end.dateTime"
  else Except.ok (buildEvent a)

/-- The parameter object listCalendarEvents passes to calendar.events.list
(part_001 lines 312-320): maxResults is clamped to [1,50] around a default
of 10, timeMin defaults to the current instant, singleEvents is
`args.singleEvents !== false`, orderBy is startTime. -/
def listCalendarEvents (args : ListArgs) (nowIso : String) : ListParams :=
  { calendarId := "primary"
  , timeMin := jsOrStr args.timeMin nowIso
  , timeMax := args.timeMax
  , maxResults := min (max (jsOrInt args.maxResults 10) 1) 50
  , singleEvents := args.singleEvents != some false
  , orderBy := "startTime" }

/-- Arguments of update_calendar_event (part_001). -/
structure UpdateArgs where
  eventId : Option String
  summary : Option String
  description : Option String
  location : Option String
  start : Option TimeArg
  end_ : Option TimeArg
deriving Repr, DecidableEq

/-- The updateData object sent to calendar.events.update by part_001:
every field is included only when the corresponding argument was provided
(`none` here means the field is absent from the payload). -/
structure UpdatePayload where
  summary : Option String
  description : Option String
  location : Option String
  start : Option EventTime
  end_ : Option EventTime
deriving Repr, DecidableEq

/-- updateCalendarEvent (part_001 lines 395-455): requires eventId, fetches
the current event (binding it without using its data), then builds
updateData from the provided fields only; upstream 404 on the fetch becomes
"Event not found: id", other upstream errors are rethrown.  The result is
the resource sent to calendar.events.update or the thrown message. -/
def updateCalendarEvent (u : UpdateArgs)
    (getOutcome : Except UpstreamErr CalendarEvent) : Except String UpdatePayload :=
  if !truthy u.eventId then Except.error "Missing required field: eventId"
  else
    match getOutcome with
    | Except.error e =>
        if e.code = some 404 then
          Except.error ("Event not found: " ++ u.eventId.getD "")
        else Except.error e.msg
    | Except.ok _currentEvent =>
        Except.ok
          { summary := u.summary
          , description := u.description
          , location := u.location
          , start :=
              match u.start with
              | some ta => some ⟨ta.dateTime, none, some (jsOrStr ta.timeZone "America/Sao_Paulo")⟩
              | none => none
          , end_ :=
              match u.end_ with
              | some ta => some ⟨ta.dateTime, none, some (jsOrStr ta.timeZone "America/Sao_Paulo")⟩
              | none => none }

/-- Observable outcome of POST /tools/call (part_001): HTTP status, the
error field of the JSON body (if any), and which tool handler ran (if
any). -/
structure CallOutcome where
  status : Nat
  errorField : Option String
  handlerRun : Option String
deriving Repr, DecidableEq

/-- The tool catalog of the tool-calling variant (part_001). -/
def variantTools : List String :=
  ["list_calendar_events", "create_calendar_event", "update_calendar_event",
   "delete_calendar_event"]

/-- POST /tools/call (part_001 lines 234-306): 400 when the name field is
falsy, 401 when the server is not authenticated, then the switch runs the
matching handler (500 with "Tool execution failed: ..." when it throws) and
the default branch answers 400 with "Unknown tool: ..." without running any
handler. -/
def toolsCall (name : Option String) (isAuthenticated : Bool)
    (handlerOutcome : Except String Unit) : CallOutcome :=
  if !truthy name then ⟨400, some "Missing required field: name", none⟩
  else if !isAuthenticated then
    ⟨401, some "Server not authenticated. Administrator must authenticate first.", none⟩
  else
    let n := name.getD ""
    if n = "list_calendar_events" ∨ n = "create_calendar_event"
        ∨ n = "update_calendar_event" ∨ n = "delete_calendar_event" then
      match handlerOutcome with
      | Except.ok _ => ⟨200, none, some n⟩
      | Except.error m => ⟨500, some ("Tool execution failed: " ++ m), some n⟩
    else ⟨400, some ("Unknown tool: " ++ n), none⟩

end PartOne

namespace PartTwo

/-- Messages of the two auth errors as thrown in part_002's
getAuthenticatedClient. -/
def authMessage : AuthError → String
  | AuthError.notAuthenticated =>
      "Não autenticado. Use /auth/url para obter o link de autenticação."
  | AuthError.tokenExpired => "Token expirado. Faça nova autenticação."

/-- An HTTP response as observed by the caller: status code and the error
field of the JSON body (none on success bodies). -/
structure HttpResponse where
  status : Nat
  error : Option String
deriving Repr, DecidableEq

/-- The catch block of GET and POST /calendar/events (part_002):
`res.status(error.code === 401 ? 401 : 500).json({error: error.message})`.
`code` is the thrown error's code property (none for the locally thrown
plain auth errors). -/
def catchGeneric (code : Option Int) (msg : String) : HttpResponse :=
  { status := if code = some 401 then 401 else 500, error := some msg }

/-- The catch block of PUT and DELETE /calendar/events/:id (part_002):
code 404 answers 404 {error: "Event not found"}, otherwise as
catchGeneric. -/
def catchNotFound (code : Option Int) (msg : String) : HttpResponse :=
  if code = some 404 then { status := 404, error := some "Event not found" }
  else catchGeneric code msg

/-- GET /calendar/events (part_002 lines 200-238): authenticates, lists;
any thrown error reaches catchGeneric.  `listOutcome` is the oracle for the
calendar.events.list call. -/
def getEvents (tokens : Option Token) (now : Int) (r : Option Token)
    (listOutcome : Except UpstreamErr Unit) : HttpResponse :=
  match (getAuthenticatedClient tokens now r).result with
  | Except.error e => catchGeneric none (authMessage e)
  | Except.ok _ =>
      match listOutcome with
      | Except.error u => catchGeneric u.code u.msg
      | Except.ok _ => { status := 200, error := none }

/-- Outcome of POST /calendar/events: the response and the event resource
sent to calendar.events.insert (none when the insert was not reached). -/
structure PostOutcome where
  response : HttpResponse
  sent : Option EventBody
deriving Repr, DecidableEq

/-- POST /calendar/events (part_002 lines 240-279): authenticates first,
then answers 400 when summary, start or end is falsy, otherwise inserts
the buildEventBody resource. -/
def postEvent (body : EventArgs) (tokens : Option Token) (now : Int)
    (r : Option Token) (insertOutcome : Except UpstreamErr Unit) : PostOutcome :=
  match (getAuthenticatedClient tokens now r).result with
  | Except.error e => ⟨catchGeneric none (authMessage e), none⟩
  | Except.ok _ =>
      if !truthy body.summary || !truthy body.start || !truthy body.end_ then
        ⟨{ status := 400, error := some "Missing required fields: summary, start, end" }, none⟩
      else
        let event := buildEventBody body
        match insertOutcome with
        | Except.error u => ⟨catchGeneric u.code u.msg, some event⟩
        | Except.ok _ => ⟨{ status := 200, error := none }, some event⟩

/-- Outcome of PUT /calendar/events/:id: the response and the merged
resource sent to calendar.events.update (none when the update was not
reached). -/
structure PutOutcome where
  response : HttpResponse
  sent : Option EventBody
deriving Repr, DecidableEq

/-- PUT /calendar/events/:id (part_002 lines 281-326): authenticates,
fetches the current event, sends the mergeUpdate resource; thrown errors
reach catchNotFound. -/
def putEvent (body : EventArgs) (tokens : Option Token) (now : Int)
    (r : Option Token) (getOutcome : Except UpstreamErr CalendarEvent)
    (updateOutcome : Except UpstreamErr Unit) : PutOutcome :=
  match (getAuthenticatedClient tokens now r).result with
  | Except.error e => ⟨catchNotFound none (authMessage e), none⟩
  | Except.ok _ =>
      match getOutcome with
      | Except.error u => ⟨catchNotFound u.code u.msg, none⟩
      | Except.ok current =>
          let updatedEvent := mergeUpdate body current
          match updateOutcome with
          | Except.error u => ⟨catchNotFound u.code u.msg, some updatedEvent⟩
          | Except.ok _ => ⟨{ status := 200, error := none }, some updatedEvent⟩

/-- DELETE /calendar/events/:id (part_002 lines 328-362): authenticates,
fetches the event (for the confirmation payload), deletes it; thrown errors
reach catchNotFound. -/
def deleteRoute (tokens : Option Token) (now : Int) (r : Option Token)
    (getOutcome : Except UpstreamErr CalendarEvent)
    (deleteOutcome : Except UpstreamErr Unit) : HttpResponse :=
  match (getAuthenticatedClient tokens now r).result with
  | Except.error e => catchNotFound none (authMessage e)
  | Except.ok _ =>
      match getOutcome with
      | Except.error u => catchNotFound u.code u.msg
      | Except.ok _ =>
          match deleteOutcome with
          | Except.error u => catchNotFound u.code u.msg
          | Except.ok _ => { status := 200, error := none }

end PartTwo

/-- A stored token whose refresh guard is off is used as-is: the client gets
it, the store keeps it, no refresh happens. -/
theorem getAuth_fresh (t : Token) (now : Int) (r : Option Token)
    (h : needsRefresh t now = false) :
    getAuthenticatedClient (some t) now r = ⟨Except.ok t, some t, false⟩ := by
  simp [getAuthenticatedClient, h]

/-- Claim C1 (amended): with no stored credential, getAuthenticatedClient
fails as not-authenticated; with a stored credential whose expiry timestamp
is present, nonzero and at most now, a refresh is attempted; on refresh
success the stored credential is replaced by the refreshed one and returned;
on refresh failure the stored credential is cleared and the call fails as
token-expired, so every subsequent call on the resulting state fails as
not-authenticated instead of reusing the stale credential. -/
theorem c1_credential_lifecycle (t : Token) (d now : Int) (r : Option Token)
    (hd : t.expiry_date = some d) (hnz : d ≠ 0) (hle : d ≤ now) :
    (∀ now2 r2, (getAuthenticatedClient none now2 r2).result
        = Except.error AuthError.notAuthenticated)
  ∧ (getAuthenticatedClient (some t) now r).refreshAttempted = true
  ∧ (∀ c, r = some c →
      getAuthenticatedClient (some t) now r = ⟨Except.ok c, some c, true⟩)
  ∧ (r = none →
      getAuthenticatedClient (some t) now r
          = ⟨Except.error AuthError.tokenExpired, none, true⟩
      ∧ ∀ now2 r2,
          (getAuthenticatedClient (getAuthenticatedClient (some t) now r).tokens now2 r2).result
            = Except.error AuthError.notAuthenticated) := by
  have hN : needsRefresh t now = true := by
    simp [needsRefresh, hd, hnz, hle]
  refine ⟨fun now2 r2 => rfl, ?_, ?_, ?_⟩
  · cases r <;> simp [getAuthenticatedClient, hN]
  · intro c hc; subst hc; simp [getAuthenticatedClient, hN]
  · intro hr; subst hr
    refine ⟨by simp [getAuthenticatedClient, hN], ?_⟩
    intro now2 r2
    simp [getAuthenticatedClient, hN]

/-- Claim C1 witness: the lifecycle theorem evaluated on the concrete token
with expiry 1 at time 5, with the refresh failing. -/
theorem c1_credential_lifecycle_witness :
    (getAuthenticatedClient (some ⟨"a", "r", some 1⟩) 5 none).refreshAttempted = true
  ∧ getAuthenticatedClient (some ⟨"a", "r", some 1⟩) 5 none
      = ⟨Except.error AuthError.tokenExpired, none, true⟩
  ∧ (getAuthenticatedClient (getAuthenticatedClient (some ⟨"a", "r", some 1⟩) 5 none).tokens 7 none).result
      = Except.error AuthError.notAuthenticated := by
  have h := c1_credential_lifecycle ⟨"a", "r", some 1⟩ 1 5 none rfl (by decide) (by decide)
  exact ⟨h.2.1, (h.2.2.2 rfl).1, (h.2.2.2 rfl).2 7 none⟩

/-- Claim C1 counterexample: a stored credential with expiry timestamp 0
(which is at most now = 5) triggers no refresh at all; the stale credential
is returned and kept, contradicting the claim that any stored credential
with expiry at most now causes a refresh attempt. -/
theorem c1_counterexample :
    (⟨"a", "r", some 0⟩ : Token).expiry_date = some 0
  ∧ ((0 : Int) ≤ 5)
  ∧ (getAuthenticatedClient (some ⟨"a", "r", some 0⟩) 5 none).refreshAttempted = false
  ∧ (getAuthenticatedClient (some ⟨"a", "r", some 0⟩) 5 none).result
      = Except.ok ⟨"a", "r", some 0⟩
  ∧ (getAuthenticatedClient (some ⟨"a", "r", some 0⟩) 5 none).tokens
      = some ⟨"a", "r", some 0⟩ := by
  exact ⟨rfl, by decide, rfl, rfl, rfl⟩

/-- Claim C9: the refresh branch of getAuthenticatedClient is taken exactly
when the stored token's expiry_date is present, truthy (nonzero) and at most
now; a stored token with an absent or zero expiry_date is used as-is and
never cleared, whatever the refresh oracle would do. -/
theorem c9_refresh_guard (t : Token) (now : Int) (r : Option Token) :
    ((getAuthenticatedClient (some t) now r).refreshAttempted = true
      ↔ ∃ d, t.expiry_date = some d ∧ d ≠ 0 ∧ d ≤ now)
  ∧ (t.expiry_date = none →
      getAuthenticatedClient (some t) now r = ⟨Except.ok t, some t, false⟩)
  ∧ (t.expiry_date = some 0 →
      getAuthenticatedClient (some t) now r = ⟨Except.ok t, some t, false⟩) := by
  have hRA : (getAuthenticatedClient (some t) now r).refreshAttempted
      = needsRefresh t now := by
    by_cases h : needsRefresh t now
    · cases r <;> simp [getAuthenticatedClient, h]
    · simp [getAuthenticatedClient, h]
  refine ⟨?_, ?_, ?_⟩
  · rw [hRA]
    cases hed : t.expiry_date with
    | none => simp [needsRefresh, hed]
    | some d => simp [needsRefresh, hed]
  · intro h
    exact getAuth_fresh t now r (by simp [needsRefresh, h])
  · intro h
    exact getAuth_fresh t now r (by simp [needsRefresh, h])

/-- Claim C9 witness: a token with no expiry_date is used as-is at time 0
even though a refresh-failure oracle is supplied. -/
theorem c9_refresh_guard_witness :
    getAuthenticatedClient (some ⟨"a", "r", none⟩) 0 none
      = ⟨Except.ok ⟨"a", "r", none⟩, some ⟨"a", "r", none⟩, false⟩
  ∧ getAuthenticatedClient (some ⟨"a", "r", some 0⟩) 99 none
      = ⟨Except.ok ⟨"a", "r", some 0⟩, some ⟨"a", "r", some 0⟩, false⟩ := by
  exact ⟨(c9_refresh_guard ⟨"a", "r", none⟩ 0 none).2.1 rfl,
         (c9_refresh_guard ⟨"a", "r", some 0⟩ 99 none).2.2 rfl⟩

/-- Claim C10: the update merge of index.js updateEvent and part_002 PUT is
asymmetric at the public interface: an empty-string summary, start or end is
treated as omitted (the fetched value is kept, the merge tests truthiness),
while an empty-string description or location overwrites the fetched value
with the empty string (the merge tests only for undefined). -/
theorem c10_merge_asymmetry (args : EventArgs) (current : CalendarEvent) :
    (args.summary = some "" → (mergeUpdate args current).summary = current.summary)
  ∧ (args.description = some "" → (mergeUpdate args current).description = some "")
  ∧ (args.location = some "" → (mergeUpdate args current).location = some "")
  ∧ (args.start = some "" → (mergeUpdate args current).start = current.start)
  ∧ (args.end_ = some "" → (mergeUpdate args current).end_ = current.end_) := by
  refine ⟨?_, ?_, ?_, ?_, ?_⟩ <;> intro h <;> simp [mergeUpdate, truthy, h]

/-- Claim C10 witness: the asymmetry evaluated with every field set to the
empty string against a concrete fetched event. -/
theorem c10_merge_asymmetry_witness :
    (mergeUpdate ⟨some "", some "", some "", some "", some ""⟩
        ⟨some "id", some "Old", some "D", some "L",
          ⟨some "s", none, none⟩, ⟨some "e", none, none⟩⟩).summary = some "Old"
  ∧ (mergeUpdate ⟨some "", some "", some "", some "", some ""⟩
        ⟨some "id", some "Old", some "D", some "L",
          ⟨some "s", none, none⟩, ⟨some "e", none, none⟩⟩).description = some ""
  ∧ (mergeUpdate ⟨some "", some "", some "", some "", some ""⟩
        ⟨some "id", some "Old", some "D", some "L",
          ⟨some "s", none, none⟩, ⟨some "e", none, none⟩⟩).location = some ""
  ∧ (mergeUpdate ⟨some "", some "", some "", some "", some ""⟩
        ⟨some "id", some "Old", some "D", some "L",
          ⟨some "s", none, none⟩, ⟨some "e", none, none⟩⟩).start = ⟨some "s", none, none⟩
  ∧ (mergeUpdate ⟨some "", some "", some "", some "", some ""⟩
        ⟨some "id", some "Old", some "D", some "L",
          ⟨some "s", none, none⟩, ⟨some "e", none, none⟩⟩).end_ = ⟨some "e", none, none⟩ := by
  have h := c10_merge_asymmetry ⟨some "", some "", some "", some "", some ""⟩
      ⟨some "id", some "Old", some "D", some "L",
        ⟨some "s", none, none⟩, ⟨some "e", none, none⟩⟩
  exact ⟨h.1 rfl, h.2.1 rfl, h.2.2.1 rfl, h.2.2.2.1 rfl, h.2.2.2.2 rfl⟩

/-- A concrete fetched event used to exercise the update paths of claim
C3. -/
def sampleFetchedEvent : CalendarEvent :=
  ⟨some "X", some "Old title", some "Old description", some "Old location",
   ⟨some "2024-06-01T10:00:00Z", none, none⟩,
   ⟨some "2024-06-01T11:00:00Z", none, none⟩⟩

/-- Claim C3 (amended): in the MCP stdio variant (index.js updateEvent) and
the REST variant (part_002 PUT) the update is a merge: every field omitted
from the arguments is sent upstream with the fetched event's value, and an
update providing only a new summary changes only summary; in the
OpenAI tool-calling variant (part_001 updateCalendarEvent) the current
event is fetched but the payload contains only the provided fields —
omitted fields are left absent, not copied. -/
theorem c3_update_merge (args : EventArgs) (current : CalendarEvent)
    (u : PartOne.UpdateArgs) (ev : CalendarEvent) (p : PartOne.UpdatePayload) :
    (args.summary = none → (mergeUpdate args current).summary = current.summary)
  ∧ (args.description = none → (mergeUpdate args current).description = current.description)
  ∧ (args.location = none → (mergeUpdate args current).location = current.location)
  ∧ (args.start = none → (mergeUpdate args current).start = current.start)
  ∧ (args.end_ = none → (mergeUpdate args current).end_ = current.end_)
  ∧ (∀ s, s ≠ "" → mergeUpdate ⟨some s, none, none, none, none⟩ current
      = ⟨some s, current.description, current.location, current.start, current.end_⟩)
  ∧ (PartOne.updateCalendarEvent u (Except.ok ev) = Except.ok p →
      u.start = none → p.start = none)
  ∧ (PartOne.updateCalendarEvent u (Except.ok ev) = Except.ok p →
      u.end_ = none → p.end_ = none) := by
  refine ⟨?_, ?_, ?_, ?_, ?_, ?_, ?_, ?_⟩
  · intro h; simp [mergeUpdate, truthy, h]
  · intro h; simp [mergeUpdate, h]
  · intro h; simp [mergeUpdate, h]
  · intro h; simp [mergeUpdate, truthy, h]
  · intro h; simp [mergeUpdate, truthy, h]
  · intro s hs; simp [mergeUpdate, truthy, hs]
  · intro hok hstart
    cases he : truthy u.eventId with
    | false => simp [PartOne.updateCalendarEvent, he] at hok
    | true =>
        simp [PartOne.updateCalendarEvent, he] at hok
        rw [← hok]
        simp [hstart]
  · intro hok hend
    cases he : truthy u.eventId with
    | false => simp [PartOne.updateCalendarEvent, he] at hok
    | true =>
        simp [PartOne.updateCalendarEvent, he] at hok
        rw [← hok]
        simp [hend]

/-- Claim C3 witness: the merge evaluated on all-omitted arguments and on a
summary-only update against sampleFetchedEvent, and the part_001 payload of
a summary-only update has no start field. -/
theorem c3_update_merge_witness :
    (mergeUpdate ⟨none, none, none, none, none⟩ sampleFetchedEvent).summary
        = sampleFetchedEvent.summary
  ∧ (mergeUpdate ⟨none, none, none, none, none⟩ sampleFetchedEvent).start
        = sampleFetchedEvent.start
  ∧ mergeUpdate ⟨some "new", none, none, none, none⟩ sampleFetchedEvent
      = ⟨some "new", sampleFetchedEvent.description, sampleFetchedEvent.location,
         sampleFetchedEvent.start, sampleFetchedEvent.end_⟩
  ∧ (⟨some "new", none, none, none, none⟩ : PartOne.UpdatePayload).start = none := by
  have h := c3_update_merge ⟨none, none, none, none, none⟩ sampleFetchedEvent
      ⟨some "X", some "new", none, none, none, none⟩ sampleFetchedEvent
      ⟨some "new", none, none, none, none⟩
  exact ⟨h.1 rfl, h.2.2.2.1 rfl, h.2.2.2.2.2.1 "new" (by decide),
         h.2.2.2.2.2.2.1 rfl rfl⟩

/-- Claim C3 counterexample: part_001 updateCalendarEvent with only a new
summary, after fetching an event whose start has a dateTime, sends a payload
whose start field is absent — not the fetched event's value — so the claim
that every omitted field is sent with the fetched value is false there. -/
theorem c3_counterexample :
    PartOne.updateCalendarEvent ⟨some "X", some "new", none, none, none, none⟩
        (Except.ok sampleFetchedEvent)
      = Except.ok ⟨some "new", none, none, none, none⟩
  ∧ sampleFetchedEvent.start.dateTime = some "2024-06-01T10:00:00Z"
  ∧ sampleFetchedEvent.location = some "Old location" := by
  exact ⟨rfl, rfl, rfl⟩

/-- Claim C2 (code bug): the MCP stdio variant's createEvent performs no
validation at all — invoked with summary missing (against its own
inputSchema, which declares summary, start and end required) and a valid
stored token, it still issues the upstream calendar.events.insert with an
undefined summary; the REST variant with the same arguments answers 400
before any insert, showing the intended behavior. -/
theorem c2_create_event_no_validation :
    IndexJs.createEvent
        ⟨none, none, none, some "2024-01-01T10:00:00Z", some "2024-01-01T11:00:00Z"⟩
        (some ⟨"at", "rt", some 9999999⟩) 0 none
      = some ⟨"primary",
          ⟨none, none, none, ⟨some "2024-01-01T10:00:00Z", none, none⟩,
           ⟨some "2024-01-01T11:00:00Z", none, none⟩⟩⟩
  ∧ (PartTwo.postEvent
        ⟨none, none, none, some "2024-01-01T10:00:00Z", some "2024-01-01T11:00:00Z"⟩
        (some ⟨"at", "rt", some 9999999⟩) 0 none (Except.ok ())).response
      = ⟨400, some "Missing required fields: summary, start, end"⟩
  ∧ (PartTwo.postEvent
        ⟨none, none, none, some "2024-01-01T10:00:00Z", some "2024-01-01T11:00:00Z"⟩
        (some ⟨"at", "rt", some 9999999⟩) 0 none (Except.ok ())).sent = none := by
  exact ⟨rfl, rfl, rfl⟩

/-- Claim C4: on update_event and delete_event, an upstream error with
status code 404 — whether on the pre-fetch or on the write/delete itself —
yields the distinct event-not-found outcome (status 404 with body
"Event not found" on the REST routes; the dedicated "Evento não encontrado"
content in the MCP variant), while any other upstream error code propagates
the original message in an outcome distinct from the not-found one. -/
theorem c4_event_not_found (body : EventArgs) (t : Token) (now : Int)
    (r : Option Token) (ev : CalendarEvent) (u : UpstreamErr)
    (du : Except UpstreamErr Unit) (eid : String)
    (hfresh : needsRefresh t now = false) (hc : u.code ≠ some 404) :
    (PartTwo.putEvent body (some t) now r (Except.error ⟨some 404, u.msg⟩) du).response
        = ⟨404, some "Event not found"⟩
  ∧ (PartTwo.putEvent body (some t) now r (Except.ok ev) (Except.error ⟨some 404, u.msg⟩)).response
        = ⟨404, some "Event not found"⟩
  ∧ (PartTwo.putEvent body (some t) now r (Except.error u) du).response.error = some u.msg
  ∧ (PartTwo.putEvent body (some t) now r (Except.error u) du).response.status ≠ 404
  ∧ PartTwo.deleteRoute (some t) now r (Except.error ⟨some 404, u.msg⟩) du
        = ⟨404, some "Event not found"⟩
  ∧ PartTwo.deleteRoute (some t) now r (Except.ok ev) (Except.error ⟨some 404, u.msg⟩)
        = ⟨404, some "Event not found"⟩
  ∧ (PartTwo.deleteRoute (some t) now r (Except.error u) du).error = some u.msg
  ∧ (PartTwo.deleteRoute (some t) now r (Except.error u) du).status ≠ 404
  ∧ IndexJs.deleteEvent eid (some t) now r (Except.error ⟨some 404, u.msg⟩) du
        = IndexJs.ToolOutcome.notFound eid
  ∧ IndexJs.deleteEvent eid (some t) now r (Except.error u) du
        = IndexJs.ToolOutcome.err ("Erro ao deletar evento: " ++ u.msg)
  ∧ (IndexJs.updateEvent body eid (some t) now r (Except.error ⟨some 404, u.msg⟩) du).outcome
        = IndexJs.ToolOutcome.notFound eid
  ∧ (IndexJs.updateEvent body eid (some t) now r (Except.error u) du).outcome
        = IndexJs.ToolOutcome.err ("Erro ao atualizar evento: " ++ u.msg) := by
  have hauth := getAuth_fresh t now r hfresh
  refine ⟨?_, ?_, ?_, ?_, ?_, ?_, ?_, ?_, ?_, ?_, ?_, ?_⟩
  · simp [PartTwo.putEvent, hauth, PartTwo.catchNotFound]
  · cases du with
    | error u2 =>
        cases hu : decide (u2.code = some 404) with
        | false =>
            simp at hu
            simp [PartTwo.putEvent, hauth, PartTwo.catchNotFound]
        | true =>
            simp at hu
            simp [PartTwo.putEvent, hauth, PartTwo.catchNotFound]
    | ok _ => simp [PartTwo.putEvent, hauth, PartTwo.catchNotFound]
  · simp [PartTwo.putEvent, hauth, PartTwo.catchNotFound, PartTwo.catchGeneric, hc]
  · simp [PartTwo.putEvent, hauth, PartTwo.catchNotFound, PartTwo.catchGeneric, hc]
    split <;> decide
  · simp [PartTwo.deleteRoute, hauth, PartTwo.catchNotFound]
  · simp [PartTwo.deleteRoute, hauth, PartTwo.catchNotFound]
  · simp [PartTwo.deleteRoute, hauth, PartTwo.catchNotFound, PartTwo.catchGeneric, hc]
  · simp [PartTwo.deleteRoute, hauth, PartTwo.catchNotFound, PartTwo.catchGeneric, hc]
    split <;> decide
  · simp [IndexJs.deleteEvent, hauth]
  · simp [IndexJs.deleteEvent, hauth, hc]
  · simp [IndexJs.updateEvent, hauth]
  · simp [IndexJs.updateEvent, hauth, hc]

/-- Claim C4 witness: the not-found narrowing evaluated at a concrete
500-coded upstream error and a concrete 404. -/
theorem c4_event_not_found_witness :
    (PartTwo.putEvent ⟨none, none, none, none, none⟩ (some ⟨"at", "rt", none⟩) 0 none
        (Except.error ⟨some 404, "boom"⟩) (Except.ok ())).response
      = ⟨404, some "Event not found"⟩
  ∧ (PartTwo.deleteRoute (some ⟨"at", "rt", none⟩) 0 none
        (Except.error ⟨some 500, "boom"⟩) (Except.ok ())).error = some "boom"
  ∧ (PartTwo.deleteRoute (some ⟨"at", "rt", none⟩) 0 none
        (Except.error ⟨some 500, "boom"⟩) (Except.ok ())).status ≠ 404
  ∧ IndexJs.deleteEvent "X" (some ⟨"at", "rt", none⟩) 0 none
        (Except.error ⟨some 404, "boom"⟩) (Except.ok ())
      = IndexJs.ToolOutcome.notFound "X"
  ∧ (IndexJs.updateEvent ⟨none, none, none, none, none⟩ "X" (some ⟨"at", "rt", none⟩) 0 none
        (Except.error ⟨some 500, "boom"⟩) (Except.ok ())).outcome
      = IndexJs.ToolOutcome.err "Erro ao atualizar evento: boom" := by
  have h := c4_event_not_found ⟨none, none, none, none, none⟩ ⟨"at", "rt", none⟩ 0 none
      ⟨some "id", some "T", none, none, ⟨some "s", none, none⟩, ⟨some "e", none, none⟩⟩
      ⟨some 500, "boom"⟩ (Except.ok ()) "X" rfl (by decide)
  exact ⟨h.1, h.2.2.2.2.2.2.1, h.2.2.2.2.2.2.2.1, h.2.2.2.2.2.2.2.2.1,
         h.2.2.2.2.2.2.2.2.2.2.2⟩

/-- Claim C5: a tool name outside the fixed catalog is rejected by the
dispatch of both variants with an unknown-tool failure that carries the
offending name, and no handler runs: index.js answers through the default
switch branch (McpError with "Ferramenta desconhecida: " plus the name),
part_001 answers 400 with "Unknown tool: " plus the name and a none
handlerRun, provided the request carries a nonempty name and the server is
authenticated (part_001 rejects unauthenticated calls earlier with 401). -/
theorem c5_unknown_tool (name : String) (ho : Except String Unit)
    (h1 : name ∉ IndexJs.mcpTools) (h2 : name ∉ PartOne.variantTools)
    (h3 : name ≠ "") :
    IndexJs.handleCallTool name = IndexJs.Dispatch.unknownTool name
  ∧ PartOne.toolsCall (some name) true ho
      = ⟨400, some ("Unknown tool: " ++ name), none⟩ := by
  simp [IndexJs.mcpTools] at h1
  simp [PartOne.variantTools] at h2
  obtain ⟨a1, a2, a3, a4, a5, a6⟩ := h1
  obtain ⟨b1, b2, b3, b4⟩ := h2
  constructor
  · simp [IndexJs.handleCallTool, a1, a2, a3, a4, a5, a6]
  · simp [PartOne.toolsCall, truthy, h3, b1, b2, b3, b4]

/-- Claim C5 witness: the dispatch rejection evaluated at the concrete
unknown tool name "foo_tool". -/
theorem c5_unknown_tool_witness :
    IndexJs.handleCallTool "foo_tool" = IndexJs.Dispatch.unknownTool "foo_tool"
  ∧ PartOne.toolsCall (some "foo_tool") true (Except.ok ())
      = ⟨400, some ("Unknown tool: " ++ "foo_tool"), none⟩ := by
  exact c5_unknown_tool "foo_tool" (Except.ok ()) (by decide) (by decide) (by decide)

/-- Claim C6 (amended): on the HTTP surface every error response body
carries an error message field; 404 signals event-not-found, 400 signals
validation failure, and 401 is produced for upstream errors that carry
status code 401 (and by part_001's /tools/call gate for an unauthenticated
server) — but the locally raised not-authenticated and token-expired errors
of the REST variant carry no code property and therefore surface as 500,
the catch-all status, not as 401. -/
theorem c6_http_status_mapping (tokens : Option Token) (now : Int)
    (r : Option Token) (lo : Except UpstreamErr Unit) (body : EventArgs)
    (t : Token) (u : UpstreamErr) (m nm : String) (ho : Except String Unit)
    (hfresh : needsRefresh t now = false) (hmiss : truthy body.summary = false)
    (hc4 : u.code ≠ some 404) (hc1 : u.code ≠ some 401) (hn : nm ≠ "") :
    ((PartTwo.getEvents tokens now r lo).status ≠ 200 →
        ((PartTwo.getEvents tokens now r lo).error).isSome = true)
  ∧ (PartTwo.getEvents none now r lo).status = 500
  ∧ (PartTwo.getEvents none now r lo).error
        = some (PartTwo.authMessage AuthError.notAuthenticated)
  ∧ PartTwo.getEvents (some t) now r (Except.error ⟨some 401, m⟩) = ⟨401, some m⟩
  ∧ (PartTwo.postEvent body (some t) now r lo).response
        = ⟨400, some "Missing required fields: summary, start, end"⟩
  ∧ (PartTwo.postEvent body (some t) now r lo).sent = none
  ∧ PartTwo.deleteRoute (some t) now r (Except.error ⟨some 404, m⟩) lo
        = ⟨404, some "Event not found"⟩
  ∧ (PartTwo.putEvent body (some t) now r (Except.error u) lo).response.status = 500
  ∧ (PartTwo.putEvent body (some t) now r (Except.error u) lo).response.error = some u.msg
  ∧ PartOne.toolsCall (some nm) false ho
        = ⟨401, some "Server not authenticated. Administrator must authenticate first.", none⟩ := by
  have hauth := getAuth_fresh t now r hfresh
  refine ⟨?_, ?_, ?_, ?_, ?_, ?_, ?_, ?_, ?_, ?_⟩
  · intro hs
    cases htk : tokens with
    | none => simp [PartTwo.getEvents, getAuthenticatedClient, PartTwo.catchGeneric]
    | some t2 =>
        cases hres : (getAuthenticatedClient (some t2) now r).result with
        | error e => simp [PartTwo.getEvents, hres, PartTwo.catchGeneric]
        | ok _ =>
            cases lo with
            | error u2 => simp [PartTwo.getEvents, hres, PartTwo.catchGeneric]
            | ok _ => rw [htk] at hs; simp [PartTwo.getEvents, hres] at hs
  · simp [PartTwo.getEvents, getAuthenticatedClient, PartTwo.catchGeneric]
  · simp [PartTwo.getEvents, getAuthenticatedClient, PartTwo.catchGeneric]
  · simp [PartTwo.getEvents, hauth, PartTwo.catchGeneric]
  · simp [PartTwo.postEvent, hauth, hmiss]
  · simp [PartTwo.postEvent, hauth, hmiss]
  · simp [PartTwo.deleteRoute, hauth, PartTwo.catchNotFound]
  · simp [PartTwo.putEvent, hauth, PartTwo.catchNotFound, PartTwo.catchGeneric, hc4, hc1]
  · simp [PartTwo.putEvent, hauth, PartTwo.catchNotFound, PartTwo.catchGeneric, hc4]
  · simp [PartOne.toolsCall, truthy, hn]

/-- Claim C6 witness: the status mapping evaluated on concrete requests
(no stored token; fresh token with a 401-coded list failure; a validation
failure; a 404 delete; a 500-coded update failure; an unauthenticated
part_001 call). -/
theorem c6_http_status_mapping_witness :
    (PartTwo.getEvents none 0 none (Except.ok ())).status = 500
  ∧ PartTwo.getEvents (some ⟨"at", "rt", none⟩) 0 none
        (Except.error ⟨some 401, "Invalid Credentials"⟩)
      = ⟨401, some "Invalid Credentials"⟩
  ∧ (PartTwo.postEvent ⟨none, none, none, none, none⟩ (some ⟨"at", "rt", none⟩) 0 none
        (Except.ok ())).response
      = ⟨400, some "Missing required fields: summary, start, end"⟩
  ∧ PartTwo.deleteRoute (some ⟨"at", "rt", none⟩) 0 none
        (Except.error ⟨some 404, "nf"⟩) (Except.ok ())
      = ⟨404, some "Event not found"⟩
  ∧ (PartTwo.putEvent ⟨none, none, none, none, none⟩ (some ⟨"at", "rt", none⟩) 0 none
        (Except.error ⟨some 500, "backend"⟩) (Except.ok ())).response.status = 500
  ∧ PartOne.toolsCall (some "list_calendar_events") false (Except.ok ())
      = ⟨401, some "Server not authenticated. Administrator must authenticate first.", none⟩ := by
  have h := c6_http_status_mapping none 0 none (Except.ok ())
      ⟨none, none, none, none, none⟩ ⟨"at", "rt", none⟩ ⟨some 500, "backend"⟩
      "Invalid Credentials" "list_calendar_events" (Except.ok ())
      rfl rfl (by decide) (by decide) (by decide)
  exact ⟨h.2.1, h.2.2.2.1, h.2.2.2.2.1, h.2.2.2.2.2.2.1, h.2.2.2.2.2.2.2.1,
         h.2.2.2.2.2.2.2.2.2⟩

/-- Claim C6 counterexample: a GET /calendar/events call with no stored
credential — a missing-authentication failure — is answered with HTTP 500
carrying the not-authenticated message, not with the claimed 401: the
locally thrown auth error has no code property, so the 401-mapping test of
the catch block never fires for it. -/
theorem c6_counterexample :
    PartTwo.getEvents none 0 none (Except.ok ())
      = ⟨500, some "Não autenticado. Use /auth/url para obter o link de autenticação."⟩
  ∧ (PartTwo.getEvents none 0 none (Except.ok ())).status ≠ 401 := by
  exact ⟨rfl, by decide⟩

/-- Claim C7 (amended): in the tool-calling variant the maxResults value
sent to calendar.events.list always lies in [1,50] and equals 10 when the
argument is omitted, timeMin defaults to the current instant, the request
is ordered by start time, and singleEvents is true whenever the caller did
not explicitly pass false (it defaults to true but an explicit
singleEvents=false is forwarded); in the MCP stdio variant (which does not
clamp) maxResults defaults to 10, timeMin defaults to the current instant,
and singleEvents and orderBy are the literal values true and startTime. -/
theorem c7_list_params (args : ListArgs) (nowIso : String) :
    1 ≤ (PartOne.listCalendarEvents args nowIso).maxResults
  ∧ (PartOne.listCalendarEvents args nowIso).maxResults ≤ 50
  ∧ (args.maxResults = none → (PartOne.listCalendarEvents args nowIso).maxResults = 10)
  ∧ (args.timeMin = none → (PartOne.listCalendarEvents args nowIso).timeMin = nowIso)
  ∧ (PartOne.listCalendarEvents args nowIso).orderBy = "startTime"
  ∧ (args.singleEvents ≠ some false →
      (PartOne.listCalendarEvents args nowIso).singleEvents = true)
  ∧ (args.maxResults = none → (IndexJs.listEvents args nowIso).maxResults = 10)
  ∧ (args.timeMin = none → (IndexJs.listEvents args nowIso).timeMin = nowIso)
  ∧ (IndexJs.listEvents args nowIso).singleEvents = true
  ∧ (IndexJs.listEvents args nowIso).orderBy = "startTime" := by
  refine ⟨?_, ?_, ?_, ?_, ?_, ?_, ?_, ?_, ?_, ?_⟩
  · exact le_min (le_max_right _ _) (by norm_num)
  · exact min_le_right _ _
  · intro h; simp [PartOne.listCalendarEvents, jsOrInt, h]
  · intro h; simp [PartOne.listCalendarEvents, jsOrStr, truthy, h]
  · rfl
  · intro h; simp [PartOne.listCalendarEvents, h]
  · intro h; simp [IndexJs.listEvents, jsOrInt, h]
  · intro h; simp [IndexJs.listEvents, jsOrStr, truthy, h]
  · rfl
  · rfl

/-- Claim C7 witness: the list parameters evaluated on an empty argument
object. -/
theorem c7_list_params_witness :
    (PartOne.listCalendarEvents ⟨none, none, none, none⟩ "2024-01-01T00:00:00Z").maxResults = 10
  ∧ (PartOne.listCalendarEvents ⟨none, none, none, none⟩ "2024-01-01T00:00:00Z").timeMin
      = "2024-01-01T00:00:00Z"
  ∧ (PartOne.listCalendarEvents ⟨none, none, none, none⟩ "2024-01-01T00:00:00Z").singleEvents = true
  ∧ (PartOne.listCalendarEvents ⟨none, none, none, none⟩ "2024-01-01T00:00:00Z").orderBy = "startTime"
  ∧ (IndexJs.listEvents ⟨none, none, none, none⟩ "2024-01-01T00:00:00Z").maxResults = 10
  ∧ (IndexJs.listEvents ⟨none, none, none, none⟩ "2024-01-01T00:00:00Z").singleEvents = true := by
  have h := c7_list_params ⟨none, none, none, none⟩ "2024-01-01T00:00:00Z"
  exact ⟨h.2.2.1 rfl, h.2.2.2.1 rfl, h.2.2.2.2.2.1 (by decide), h.2.2.2.2.1,
         h.2.2.2.2.2.2.1 rfl, h.2.2.2.2.2.2.2.2.1⟩

/-- Claim C7 counterexample: the tool-calling variant forwards an explicit
singleEvents=false to the upstream request, so the claim that every
list_events request is made with singleEvents=true is false. -/
theorem c7_counterexample :
    (PartOne.listCalendarEvents ⟨none, none, none, some false⟩ "2024-01-01T00:00:00Z").singleEvents
      = false := by
  rfl

/-- Claim C8 (amended): in the tool-calling variant (part_001
createCalendarEvent) an omitted or empty timeZone on start or end is
replaced in the upstream payload by the default America/Sao_Paulo and a
supplied nonempty timeZone passes through unchanged; in the MCP stdio and
REST variants (index.js createEvent, part_002 POST) start and end are sent
as bare dateTime objects carrying no timeZone field at all, so no default
is applied there. -/
theorem c8_timezone_default (a : PartOne.CreateArgs) (ta : PartOne.TimeArg)
    (s : String) :
    (a.start = some ta → ta.timeZone = none →
      (PartOne.buildEvent a).start.timeZone = some "America/Sao_Paulo")
  ∧ (a.start = some ta → ta.timeZone = some s → s ≠ "" →
      (PartOne.buildEvent a).start.timeZone = some s)
  ∧ (a.end_ = some ta → ta.timeZone = none →
      (PartOne.buildEvent a).end_.timeZone = some "America/Sao_Paulo")
  ∧ (a.end_ = some ta → ta.timeZone = some s → s ≠ "" →
      (PartOne.buildEvent a).end_.timeZone = some s)
  ∧ (∀ b : EventArgs, (buildEventBody b).start.timeZone = none
      ∧ (buildEventBody b).end_.timeZone = none) := by
  refine ⟨?_, ?_, ?_, ?_, fun b => ⟨rfl, rfl⟩⟩
  · intro h1 h2
    simp [PartOne.buildEvent, PartOne.timeField, jsOrStr, truthy, h1, h2]
  · intro h1 h2 h3
    simp [PartOne.buildEvent, PartOne.timeField, jsOrStr, truthy, h1, h2, h3]
  · intro h1 h2
    simp [PartOne.buildEvent, PartOne.timeField, jsOrStr, truthy, h1, h2]
  · intro h1 h2 h3
    simp [PartOne.buildEvent, PartOne.timeField, jsOrStr, truthy, h1, h2, h3]

/-- Claim C8 witness: the time zone defaulting evaluated on a create call
whose start omits the timeZone and whose end supplies UTC. -/
theorem c8_timezone_default_witness :
    (PartOne.buildEvent ⟨some "S", none, none, some ⟨some "2024-01-01T10:00:00", none⟩,
        some ⟨some "2024-01-01T11:00:00", some "UTC"⟩, none⟩).start.timeZone
      = some "America/Sao_Paulo"
  ∧ (PartOne.buildEvent ⟨some "S", none, none, some ⟨some "2024-01-01T10:00:00", none⟩,
        some ⟨some "2024-01-01T11:00:00", some "UTC"⟩, none⟩).end_.timeZone
      = some "UTC"
  ∧ (buildEventBody ⟨some "S", none, none, some "2024-01-01T10:00:00Z",
        some "2024-01-01T11:00:00Z"⟩).start.timeZone = none := by
  have h1 := c8_timezone_default
      ⟨some "S", none, none, some ⟨some "2024-01-01T10:00:00", none⟩,
        some ⟨some "2024-01-01T11:00:00", some "UTC"⟩, none⟩
      ⟨some "2024-01-01T10:00:00", none⟩ "UTC"
  have h2 := c8_timezone_default
      ⟨some "S", none, none, some ⟨some "2024-01-01T10:00:00", none⟩,
        some ⟨some "2024-01-01T11:00:00", some "UTC"⟩, none⟩
      ⟨some "2024-01-01T11:00:00", some "UTC"⟩ "UTC"
  exact ⟨h1.1 rfl rfl, h2.2.2.2.1 rfl rfl (by decide),
         (h1.2.2.2.2 ⟨some "S", none, none, some "2024-01-01T10:00:00Z",
            some "2024-01-01T11:00:00Z"⟩).1⟩

/-- Claim C8 counterexample: the MCP stdio variant's createEvent, invoked
with all three required fields and necessarily no time zone (its start and
end arguments are plain strings), issues an insert whose start and end
carry no timeZone field — not the claimed America/Sao_Paulo default. -/
theorem c8_counterexample :
    IndexJs.createEvent
        ⟨some "S", none, none, some "2024-01-01T10:00:00Z", some "2024-01-01T11:00:00Z"⟩
        (some ⟨"at", "rt", none⟩) 0 none
      = some ⟨"primary",
          ⟨some "S", none, none, ⟨some "2024-01-01T10:00:00Z", none, none⟩,
           ⟨some "2024-01-01T11:00:00Z", none, none⟩⟩⟩
  ∧ (buildEventBody
        ⟨some "S", none, none, some "2024-01-01T10:00:00Z", some "2024-01-01T11:00:00Z"⟩).start.timeZone
      = none := by
  exact ⟨rfl, rfl⟩
